import Mathlib

/-!
# SUMMA padel scoreboard — verification of the match scoring state machine

This file gives a shallow embedding of the scoring backend (`padel_js.js`,
a Flask/Python program despite the file name) and of the sensor-event
debounce in the scoreboard frontend, and proves properties of the
embedded operations.

Modelling conventions, matching the source:
* Python integers holding scores/games/sets/points are `Nat` (they are
  never negative in the program: points are floored at 0 on subtraction,
  all other counters only grow or reset to 0).  Python `a - b >= 2` on
  these nonnegative values agrees with truncated `Nat` subtraction.
* Wall-clock fields of the source state (`matchstarttime`, `matchendtime`,
  `lastupdated`, history timestamps) and the winner's `matchduration`
  carry no scoring information and are omitted from the state.
* Socket broadcasts are modelled as an explicit event list returned by
  each operation, in emission order.
* The side `match_storage` dictionary (written by `store_match_data`)
  duplicates winner data for the `/matchdata` route and never feeds back
  into `game_state`; it is omitted.
* Teams are the strings `"black"`/`"yellow"` exactly as in the source;
  the source treats any string other than `"black"` as the yellow team
  (`if team == "black": ... else: ...`), and so does the embedding.
-/

namespace Summa

/-- Scoring mode: `game_state["mode"]`, one of `"normal"`, `"tiebreak"`,
`"supertiebreak"`. -/
inductive Mode where
  | normal
  | tiebreak
  | supertiebreak
deriving DecidableEq, Repr

/-- Game mode: `game_state["gamemode"]`, one of `"basic"`, `"competition"`,
`"lock"` (or Python `None`, modelled as `Option.none` at the state). -/
inductive GameMode where
  | basic
  | competition
  | lock
deriving DecidableEq, Repr

/-- One entry of `game_state["matchhistory"]`, as built by `add_to_history`
(timestamp omitted: wall clock). -/
structure HistoryEntry where
  action : String
  team : String
  scorebefore : Nat × Nat
  scoreafter : Nat × Nat
  gamebefore : Nat × Nat
  gameafter : Nat × Nat
  setbefore : Nat × Nat
  setafter : Nat × Nat
deriving DecidableEq, Repr

/-- `game_state["winner"]` as built in `check_match_winner`
(`matchduration` omitted: wall clock). -/
structure Winner where
  team : String
  teamname : String
  finalsets : String
  matchsummary : String
  totalgameswon : Nat
deriving DecidableEq, Repr

/-- The authoritative `game_state` dictionary of the backend
(wall-clock fields omitted, see the module comment). -/
structure GameState where
  game1 : Nat
  game2 : Nat
  set1 : Nat
  set2 : Nat
  point1 : Nat
  point2 : Nat
  score1 : Nat
  score2 : Nat
  matchwon : Bool
  winner : Option Winner
  sethistory : List String
  matchhistory : List HistoryEntry
  shouldswitchsides : Bool
  totalgamesinset : Nat
  initial_switch_done : Bool
  mode : Mode
  gamemode : Option GameMode
  scoreboard_active : Bool
deriving DecidableEq, Repr

/-- Socket.IO broadcasts emitted by the backend, in emission order.
`gamestateB`/`pointscoredB`/`matchwonB` carry (copies of) state already
captured by the returned `GameState`, so only their occurrence is kept. -/
inductive Evt where
  | sideswitch (totalgames : Nat) (gamescore : String) (setscore : String)
  | gamestateB
  | pointscoredB (team : String) (action : String)
  | matchwonB
deriving DecidableEq, Repr

/-- Structured outcome of the command handlers (`success` / error kind of
the returned dictionary). -/
inductive ApiResult where
  | ok
  | matchAlreadyComplete
  | notActiveBlocked
  | invalidMode
deriving DecidableEq, Repr

/-- The initial `game_state` literal (also rebuilt by `/resetmatch`). -/
def initial_game_state : GameState :=
  { game1 := 0, game2 := 0, set1 := 0, set2 := 0
    point1 := 0, point2 := 0, score1 := 0, score2 := 0
    matchwon := false, winner := none
    sethistory := [], matchhistory := []
    shouldswitchsides := false, totalgamesinset := 0
    initial_switch_done := false
    mode := Mode.normal, gamemode := none, scoreboard_active := false }

/-- `/resetmatch`: replaces the state by the initial literal and
broadcasts the game state. -/
def reset_match : GameState × List Evt :=
  (initial_game_state, [Evt.gamestateB])

/-- The payload of `broadcast_sideswitch`, read from the state at the
moment of the broadcast. -/
def broadcast_sideswitch_evt (s : GameState) : Evt :=
  Evt.sideswitch s.totalgamesinset
    (toString s.game1 ++ "-" ++ toString s.game2)
    (toString s.set1 ++ "-" ++ toString s.set2)

/-- `trigger_basic_mode_side_switch_if_needed`: in BASIC game mode, at the
start of a set (games 0-0, total sets 0, 1 or 2) and if the start-of-set
switch was not already done, mark the switch as done, raise the
side-switch flag and broadcast it. -/
def trigger_basic_mode_side_switch_if_needed (s : GameState) : GameState × List Evt :=
  if s.gamemode ≠ some GameMode.basic then (s, [])
  else
    let total_games := s.game1 + s.game2
    let total_sets := s.set1 + s.set2
    if total_games = 0 ∧ (total_sets = 0 ∨ total_sets = 1 ∨ total_sets = 2) ∧
        s.initial_switch_done = false then
      let s2 := { s with initial_switch_done := true, shouldswitchsides := true,
                         totalgamesinset := 0 }
      (s2, [broadcast_sideswitch_evt s2])
    else (s, [])

/-- `check_side_switch`: BASIC never switches after a game; COMPETITION and
LOCK switch after every odd cumulative game in the set. Returns the updated
state and whether a switch is needed. -/
def check_side_switch (s : GameState) : GameState × Bool :=
  let total_games := s.game1 + s.game2
  if s.gamemode = some GameMode.basic then (s, false)
  else if total_games % 2 = 1 then
    ({ s with shouldswitchsides := true, totalgamesinset := total_games }, true)
  else
    ({ s with shouldswitchsides := false }, false)

/-- `acknowledge_side_switch`: clears the pending side-switch flag. -/
def acknowledge_side_switch (s : GameState) : GameState :=
  { s with shouldswitchsides := false }

/-- `add_to_history`: appends one entry to `matchhistory`. -/
def add_to_history (action team : String) (scorebefore scoreafter gamebefore gameafter
    setbefore setafter : Nat × Nat) (s : GameState) : GameState :=
  { s with matchhistory := s.matchhistory ++
      [{ action := action, team := team
         scorebefore := scorebefore, scoreafter := scoreafter
         gamebefore := gamebefore, gameafter := gameafter
         setbefore := setbefore, setafter := setafter }] }

/-- The per-label games extraction of `check_match_winner`:
`int(part.split("(")[0])` on one side of a set-history label. -/
def parse_games_part (part : String) : Nat :=
  (((part.splitOn "(").headD "").toNat?).getD 0

/-- The set-history summation loop of `check_match_winner`: total
black/yellow games over the recorded set labels (labels without a `"-"`
are skipped, as in the source). -/
def sethistory_totals (hist : List String) : Nat × Nat :=
  hist.foldl
    (fun acc label =>
      let parts := label.splitOn "-"
      if 2 ≤ parts.length then
        (acc.1 + parse_games_part (parts.headD ""),
         acc.2 + parse_games_part ((parts.drop 1).headD ""))
      else acc)
    (0, 0)

/-- `check_match_winner`: a team with 2 sets wins the match; the winner
record is computed, `matchwon` is set, and a `match` history entry is
appended. Returns whether the match was won by this check. -/
def check_match_winner (s : GameState) : GameState × Bool :=
  if s.set1 = 2 then
    let totals := sethistory_totals s.sethistory
    let w : Winner :=
      { team := "black", teamname := "BLACK TEAM"
        finalsets := toString s.set1 ++ "-" ++ toString s.set2
        matchsummary := String.intercalate ", " s.sethistory
        totalgameswon := totals.1 + s.game1 }
    let s2 := { s with matchwon := true, winner := some w }
    let s3 := add_to_history "match" "black" (s2.score1, s2.score2) (s2.score1, s2.score2)
      (s2.game1, s2.game2) (s2.game1, s2.game2) (s2.set1, s2.set2) (s2.set1, s2.set2) s2
    (s3, true)
  else if s.set2 = 2 then
    let totals := sethistory_totals s.sethistory
    let w : Winner :=
      { team := "yellow", teamname := "YELLOW TEAM"
        finalsets := toString s.set1 ++ "-" ++ toString s.set2
        matchsummary := String.intercalate ", " s.sethistory
        totalgameswon := totals.2 + s.game2 }
    let s2 := { s with matchwon := true, winner := some w }
    let s3 := add_to_history "match" "yellow" (s2.score1, s2.score2) (s2.score1, s2.score2)
      (s2.game1, s2.game2) (s2.game1, s2.game2) (s2.set1, s2.set2) (s2.set1, s2.set2) s2
    (s3, true)
  else (s, false)

/-- The normal-set win condition of `check_set_winner`:
`g >= 6 and g - opp >= 2` on the winner's games. -/
def set_win_cond (g opp : Nat) : Prop := 6 ≤ g ∧ 2 ≤ g - opp

instance (g opp : Nat) : Decidable (set_win_cond g opp) := by
  unfold set_win_cond; infer_instance

/-- `check_set_winner`: awards a normal set on 6 games with a 2-game lead
(recording the label, resetting games and side-switch bookkeeping, and
re-checking the match); at 6-6 in NORMAL mode enters TIEBREAK (sets 0-0,
1-0, 0-1) or SUPER_TIEBREAK (sets 1-1) instead, resetting points and
display scores. Returns emitted events and the match-winner check result. -/
def check_set_winner (s : GameState) : GameState × List Evt × Bool :=
  let g1 := s.game1
  let g2 := s.game2
  let s1v := s.set1
  let s2v := s.set2
  if set_win_cond g1 g2 then
    let sA := { s with set1 := s.set1 + 1,
                       sethistory := s.sethistory ++ [toString g1 ++ "-" ++ toString g2] }
    let sB := add_to_history "set" "black" (sA.score1, sA.score2) (0, 0)
      (g1, g2) (0, 0) (s1v, s2v) (sA.set1, sA.set2) sA
    let sC := { sB with game1 := 0, game2 := 0, totalgamesinset := 0,
                        shouldswitchsides := false, initial_switch_done := false }
    let r1 := trigger_basic_mode_side_switch_if_needed sC
    let r2 := check_match_winner r1.1
    (r2.1, r1.2, r2.2)
  else if set_win_cond g2 g1 then
    let sA := { s with set2 := s.set2 + 1,
                       sethistory := s.sethistory ++ [toString g1 ++ "-" ++ toString g2] }
    let sB := add_to_history "set" "yellow" (sA.score1, sA.score2) (0, 0)
      (g1, g2) (0, 0) (s1v, s2v) (sA.set1, sA.set2) sA
    let sC := { sB with game1 := 0, game2 := 0, totalgamesinset := 0,
                        shouldswitchsides := false, initial_switch_done := false }
    let r1 := trigger_basic_mode_side_switch_if_needed sC
    let r2 := check_match_winner r1.1
    (r2.1, r1.2, r2.2)
  else if g1 = 6 ∧ g2 = 6 ∧ s.mode = Mode.normal then
    if (s1v = 0 ∧ s2v = 0) ∨ (s1v = 1 ∧ s2v = 0) ∨ (s1v = 0 ∧ s2v = 1) then
      ({ s with mode := Mode.tiebreak, point1 := 0, point2 := 0, score1 := 0, score2 := 0 },
       [], false)
    else if s1v = 1 ∧ s2v = 1 then
      ({ s with mode := Mode.supertiebreak, point1 := 0, point2 := 0, score1 := 0, score2 := 0 },
       [], false)
    else (s, [], false)
  else (s, [], false)

/-- The display mapping of `set_normal_score_from_points`:
raw points 0,1,2 show as 0,15,30 and anything ≥ 3 shows as 40. -/
def map_point (p : Nat) : Nat :=
  if p = 0 then 0 else if p = 1 then 15 else if p = 2 then 30 else 40

/-- `set_normal_score_from_points`: recompute both display scores from the
raw points through `map_point`. -/
def set_normal_score_from_points (s : GameState) : GameState :=
  { s with score1 := map_point s.point1, score2 := map_point s.point2 }

/-- `reset_points`: zero both raw points and both display scores. -/
def reset_points (s : GameState) : GameState :=
  { s with point1 := 0, point2 := 0, score1 := 0, score2 := 0 }

/-- `handle_normal_game_win`: increment the winner's games, reset points,
then evaluate set completion. -/
def handle_normal_game_win (team : String) (s : GameState) : GameState × List Evt :=
  let s1 := if team = "black" then { s with game1 := s.game1 + 1 }
            else { s with game2 := s.game2 + 1 }
  let s2 := reset_points s1
  let r := check_set_winner s2
  (r.1, r.2.1)

/-- `handle_tiebreak_win`: record the set with tie-break notation
(`"7-6(loser)"` on a black win, `"6-7(loser)"` on a yellow win), increment
the winner's sets, reset games, side-switch bookkeeping and points, return
to NORMAL mode, run the BASIC start-of-set trigger and re-check the match. -/
def handle_tiebreak_win (team : String) (s : GameState) : GameState × List Evt :=
  let g1 := s.game1
  let g2 := s.game2
  let tb_score := if team = "black" then "(" ++ toString s.point2 ++ ")"
                  else "(" ++ toString s.point1 ++ ")"
  let set_before := (s.set1, s.set2)
  let sB :=
    if team = "black" then
      let sA := { s with set1 := s.set1 + 1, sethistory := s.sethistory ++ ["7-6" ++ tb_score] }
      add_to_history "set" "black" (sA.score1, sA.score2) (0, 0) (g1, g2) (0, 0)
        set_before (sA.set1, sA.set2) sA
    else
      let sA := { s with set2 := s.set2 + 1, sethistory := s.sethistory ++ ["6-7" ++ tb_score] }
      add_to_history "set" "yellow" (sA.score1, sA.score2) (0, 0) (g1, g2) (0, 0)
        set_before (sA.set1, sA.set2) sA
  let sC := { sB with game1 := 0, game2 := 0, totalgamesinset := 0,
                      shouldswitchsides := false, initial_switch_done := false }
  let sD := { reset_points sC with mode := Mode.normal }
  let r1 := trigger_basic_mode_side_switch_if_needed sD
  let r2 := check_match_winner r1.1
  (r2.1, r1.2)

/-- `handle_supertiebreak_win`: record the decider with STB notation
(`"10-loser(STB)"` on a black win, `"loser-10(STB)"` on a yellow win),
increment the winner's sets, reset points, return to NORMAL mode and
re-check the match. Note: the source does not reset `game1`/`game2` here,
and does not run the BASIC start-of-set trigger. -/
def handle_supertiebreak_win (team : String) (s : GameState) : GameState × List Evt :=
  let set_before := (s.set1, s.set2)
  let sB :=
    if team = "black" then
      let sA := { s with set1 := s.set1 + 1,
                         sethistory := s.sethistory ++ ["10-" ++ toString s.point2 ++ "(STB)"] }
      add_to_history "set" "black" (sA.score1, sA.score2) (0, 0)
        (sA.game1, sA.game2) (0, 0) set_before (sA.set1, sA.set2) sA
    else
      let sA := { s with set2 := s.set2 + 1,
                         sethistory := s.sethistory ++ [toString s.point1 ++ "-10(STB)"] }
      add_to_history "set" "yellow" (sA.score1, sA.score2) (0, 0)
        (sA.game1, sA.game2) (0, 0) set_before (sA.set1, sA.set2) sA
  let sC := { sB with initial_switch_done := false }
  let sD := { reset_points sC with mode := Mode.normal }
  let r := check_match_winner sD
  (r.1, [])

/-- The NORMAL-game win condition of `process_add_point`:
`p >= 4 and p - opp >= 2` on raw points. -/
def normal_game_win_cond (p opp : Nat) : Prop := 4 ≤ p ∧ 2 ≤ p - opp

instance (p opp : Nat) : Decidable (normal_game_win_cond p opp) := by
  unfold normal_game_win_cond; infer_instance

/-- The tie-break win condition: `p >= 7 and p - opp >= 2`. -/
def tiebreak_win_cond (p opp : Nat) : Prop := 7 ≤ p ∧ 2 ≤ p - opp

instance (p opp : Nat) : Decidable (tiebreak_win_cond p opp) := by
  unfold tiebreak_win_cond; infer_instance

/-- The super-tie-break win condition: `p >= 10 and p - opp >= 2`. -/
def supertiebreak_win_cond (p opp : Nat) : Prop := 10 ≤ p ∧ 2 ≤ p - opp

instance (p opp : Nat) : Decidable (supertiebreak_win_cond p opp) := by
  unfold supertiebreak_win_cond; infer_instance

/-- `process_add_point`: the `applyPoint(team)` command. Guards (match
complete, scoreboard inactive), point increment, mode-dependent display
update and win handling, history entry (unless the match was just won),
side-switch check (normal game wins only), broadcasts. -/
def process_add_point (team : String) (s : GameState) : GameState × List Evt × ApiResult :=
  if s.matchwon then (s, [], ApiResult.matchAlreadyComplete)
  else if s.scoreboard_active = false then (s, [], ApiResult.notActiveBlocked)
  else
    let score_before := (s.score1, s.score2)
    let game_before := (s.game1, s.game2)
    let set_before := (s.set1, s.set2)
    let mode := s.mode
    let s0 := if team = "black" then { s with point1 := s.point1 + 1 }
              else { s with point2 := s.point2 + 1 }
    let p1 := s0.point1
    let p2 := s0.point2
    let step :
        GameState × List Evt × String × Bool :=
      match mode with
      | Mode.normal =>
        let sn := set_normal_score_from_points s0
        if team = "black" then
          if normal_game_win_cond p1 p2 then
            let r := handle_normal_game_win "black" sn
            (r.1, r.2, "game", true)
          else (sn, [], "point", false)
        else
          if normal_game_win_cond p2 p1 then
            let r := handle_normal_game_win "yellow" sn
            (r.1, r.2, "game", true)
          else (sn, [], "point", false)
      | Mode.tiebreak =>
        let sn := { s0 with score1 := s0.point1, score2 := s0.point2 }
        if team = "black" then
          if tiebreak_win_cond p1 p2 then
            let r := handle_tiebreak_win "black" sn
            (r.1, r.2, "set", false)
          else (sn, [], "point", false)
        else
          if tiebreak_win_cond p2 p1 then
            let r := handle_tiebreak_win "yellow" sn
            (r.1, r.2, "set", false)
          else (sn, [], "point", false)
      | Mode.supertiebreak =>
        let sn := { s0 with score1 := s0.point1, score2 := s0.point2 }
        if team = "black" then
          if supertiebreak_win_cond p1 p2 then
            let r := handle_supertiebreak_win "black" sn
            (r.1, r.2, "set", false)
          else (sn, [], "point", false)
        else
          if supertiebreak_win_cond p2 p1 then
            let r := handle_supertiebreak_win "yellow" sn
            (r.1, r.2, "set", false)
          else (sn, [], "point", false)
    let s1 := step.1
    let evs1 := step.2.1
    let action_type := step.2.2.1
    let game_just_won := step.2.2.2
    let s2 := if s1.matchwon = false then
        add_to_history action_type team score_before (s1.score1, s1.score2)
          game_before (s1.game1, s1.game2) set_before (s1.set1, s1.set2) s1
      else s1
    let step2 : GameState × List Evt :=
      if game_just_won ∧ s2.matchwon = false ∧ s2.mode = Mode.normal then
        let r := check_side_switch s2
        if r.2 then (r.1, [broadcast_sideswitch_evt r.1]) else (r.1, [])
      else (s2, [])
    let s3 := step2.1
    let evs2 := step2.2
    let evs4 := if s3.matchwon then [Evt.matchwonB] else [Evt.pointscoredB team action_type]
    (s3, evs1 ++ evs2 ++ [Evt.gamestateB] ++ evs4, ApiResult.ok)

/-- `process_subtract_point`: the `applySubtract(team)` command. Same
guards as `process_add_point`; decrements the team's raw points with a
floor at 0 (truncated `Nat` subtraction is exactly Python's
`max(0, p - 1)`), recomputes the display per mode, appends a
`point_subtract` history entry; never touches games or sets. -/
def process_subtract_point (team : String) (s : GameState) : GameState × List Evt × ApiResult :=
  if s.matchwon then (s, [], ApiResult.matchAlreadyComplete)
  else if s.scoreboard_active = false then (s, [], ApiResult.notActiveBlocked)
  else
    let score_before := (s.score1, s.score2)
    let game_before := (s.game1, s.game2)
    let set_before := (s.set1, s.set2)
    let s0 := if team = "black" then { s with point1 := s.point1 - 1 }
              else { s with point2 := s.point2 - 1 }
    let s1 := if s0.mode = Mode.normal then set_normal_score_from_points s0
              else { s0 with score1 := s0.point1, score2 := s0.point2 }
    let s2 := add_to_history "point_subtract" team score_before (s1.score1, s1.score2)
      game_before (s1.game1, s1.game2) set_before (s1.set1, s1.set2) s1
    (s2, [Evt.gamestateB], ApiResult.ok)

/-- `/setgamemode`: validates the mode string, stores the game mode,
activates the scoreboard and, in BASIC mode, runs the start-of-set
side-switch trigger. -/
def set_game_mode (mode : String) (s : GameState) : GameState × List Evt × ApiResult :=
  if ¬(mode = "basic" ∨ mode = "competition" ∨ mode = "lock") then
    (s, [], ApiResult.invalidMode)
  else
    let gm := if mode = "basic" then GameMode.basic
              else if mode = "competition" then GameMode.competition
              else GameMode.lock
    let s1 := { s with gamemode := some gm, scoreboard_active := true }
    let r := if mode = "basic" then trigger_basic_mode_side_switch_if_needed s1
             else (s1, [])
    (r.1, r.2 ++ [Evt.gamestateB], ApiResult.ok)

/-- Fold `process_add_point` over a list of team names (for concrete traces). -/
def run_add_points (ts : List String) (s : GameState) : GameState :=
  ts.foldl (fun st t => (process_add_point t st).1) s

/-! ## Sensor-event admission (frontend `handleSensorInput`, debounce head) -/

/-- The two sensor sources, matching the frontend's
`lastSensorTime = { black: 0, yellow: 0 }` keys. -/
inductive SensorTeam where
  | black
  | yellow
deriving DecidableEq, Repr

/-- `const SENSOR_DEBOUNCE_MS = 150`. -/
def SENSOR_DEBOUNCE_MS : Int := 150

/-- Per-source last-accepted timestamps (`lastSensorTime`). -/
structure LastSensorTime where
  black : Int
  yellow : Int
deriving DecidableEq, Repr

/-- `lastSensorTime[team]`. -/
def lastTimeOf (l : LastSensorTime) : SensorTeam → Int
  | SensorTeam.black => l.black
  | SensorTeam.yellow => l.yellow

/-- `lastSensorTime[team] = now`. -/
def setLastTime (l : LastSensorTime) : SensorTeam → Int → LastSensorTime
  | SensorTeam.black, now => { l with black := now }
  | SensorTeam.yellow, now => { l with yellow := now }

/-- The debounce head of the frontend's `handleSensorInput`: an event from
`team` at time `now` is silently dropped when it arrives within
`SENSOR_DEBOUNCE_MS` of the last accepted event from the same source;
otherwise it is admitted and that source's last-accepted timestamp is
updated (timestamps are `Date.now()` milliseconds, modelled as `Int`). -/
def handleSensorInput_debounce (l : LastSensorTime) (team : SensorTeam) (now : Int) :
    Bool × LastSensorTime :=
  if now - lastTimeOf l team < SENSOR_DEBOUNCE_MS then (false, l)
  else (true, setLastTime l team now)

/-! ## Frame lemmas for the scoring helpers -/

/-- The BASIC start-of-set trigger changes only the side-switch
bookkeeping fields. -/
theorem trigger_basic_frame (s : GameState) :
    ((trigger_basic_mode_side_switch_if_needed s).1.point1 = s.point1) ∧
    ((trigger_basic_mode_side_switch_if_needed s).1.point2 = s.point2) ∧
    ((trigger_basic_mode_side_switch_if_needed s).1.score1 = s.score1) ∧
    ((trigger_basic_mode_side_switch_if_needed s).1.score2 = s.score2) ∧
    ((trigger_basic_mode_side_switch_if_needed s).1.game1 = s.game1) ∧
    ((trigger_basic_mode_side_switch_if_needed s).1.game2 = s.game2) ∧
    ((trigger_basic_mode_side_switch_if_needed s).1.set1 = s.set1) ∧
    ((trigger_basic_mode_side_switch_if_needed s).1.set2 = s.set2) ∧
    ((trigger_basic_mode_side_switch_if_needed s).1.sethistory = s.sethistory) ∧
    ((trigger_basic_mode_side_switch_if_needed s).1.matchhistory = s.matchhistory) ∧
    ((trigger_basic_mode_side_switch_if_needed s).1.matchwon = s.matchwon) ∧
    ((trigger_basic_mode_side_switch_if_needed s).1.mode = s.mode) ∧
    ((trigger_basic_mode_side_switch_if_needed s).1.gamemode = s.gamemode) ∧
    ((trigger_basic_mode_side_switch_if_needed s).1.scoreboard_active = s.scoreboard_active) := by
  unfold trigger_basic_mode_side_switch_if_needed
  dsimp only
  split_ifs <;> simp

/-- When the start-of-set switch was already done, the BASIC trigger does
nothing at all. -/
theorem trigger_basic_done (s : GameState) (h : s.initial_switch_done = true) :
    trigger_basic_mode_side_switch_if_needed s = (s, []) := by
  unfold trigger_basic_mode_side_switch_if_needed
  dsimp only
  split_ifs <;> simp_all

/-- With a game mode other than BASIC, the start-of-set trigger does
nothing. -/
theorem trigger_basic_not_basic (s : GameState) (h : s.gamemode ≠ some GameMode.basic) :
    trigger_basic_mode_side_switch_if_needed s = (s, []) := by
  unfold trigger_basic_mode_side_switch_if_needed
  simp [h]

/-- `check_match_winner` changes only `matchwon`, `winner` and
`matchhistory`. -/
theorem check_match_winner_frame (s : GameState) :
    ((check_match_winner s).1.point1 = s.point1) ∧
    ((check_match_winner s).1.point2 = s.point2) ∧
    ((check_match_winner s).1.score1 = s.score1) ∧
    ((check_match_winner s).1.score2 = s.score2) ∧
    ((check_match_winner s).1.game1 = s.game1) ∧
    ((check_match_winner s).1.game2 = s.game2) ∧
    ((check_match_winner s).1.set1 = s.set1) ∧
    ((check_match_winner s).1.set2 = s.set2) ∧
    ((check_match_winner s).1.sethistory = s.sethistory) ∧
    ((check_match_winner s).1.mode = s.mode) ∧
    ((check_match_winner s).1.gamemode = s.gamemode) ∧
    ((check_match_winner s).1.shouldswitchsides = s.shouldswitchsides) ∧
    ((check_match_winner s).1.totalgamesinset = s.totalgamesinset) ∧
    ((check_match_winner s).1.initial_switch_done = s.initial_switch_done) ∧
    ((check_match_winner s).1.scoreboard_active = s.scoreboard_active) := by
  unfold check_match_winner
  split <;> [skip; split] <;> simp [add_to_history]

/-- `check_match_winner` sets `matchwon` exactly when a team has 2 sets
(and never clears it). -/
theorem check_match_winner_matchwon (s : GameState) :
    ((check_match_winner s).1).matchwon =
      (if s.set1 = 2 ∨ s.set2 = 2 then true else s.matchwon) := by
  unfold check_match_winner
  by_cases h1 : s.set1 = 2
  · simp [add_to_history, h1]
  · by_cases h2 : s.set2 = 2 <;> simp [add_to_history, h1, h2]

/-- History growth of `check_match_winner`: one `match` entry when it
fires, the untouched state otherwise. -/
theorem check_match_winner_hist (s : GameState) :
    (if s.set1 = 2 ∨ s.set2 = 2 then
      ∃ e : HistoryEntry, ((check_match_winner s).1).matchhistory = s.matchhistory ++ [e]
    else (check_match_winner s).1 = s) := by
  unfold check_match_winner
  by_cases h1 : s.set1 = 2
  · simp [add_to_history, h1]
  · by_cases h2 : s.set2 = 2 <;> simp [add_to_history, h1, h2]

/-- `check_side_switch` changes only `shouldswitchsides` and
`totalgamesinset`. -/
theorem check_side_switch_frame (s : GameState) :
    ((check_side_switch s).1.point1 = s.point1) ∧
    ((check_side_switch s).1.point2 = s.point2) ∧
    ((check_side_switch s).1.score1 = s.score1) ∧
    ((check_side_switch s).1.score2 = s.score2) ∧
    ((check_side_switch s).1.game1 = s.game1) ∧
    ((check_side_switch s).1.game2 = s.game2) ∧
    ((check_side_switch s).1.set1 = s.set1) ∧
    ((check_side_switch s).1.set2 = s.set2) ∧
    ((check_side_switch s).1.sethistory = s.sethistory) ∧
    ((check_side_switch s).1.matchhistory = s.matchhistory) ∧
    ((check_side_switch s).1.matchwon = s.matchwon) ∧
    ((check_side_switch s).1.mode = s.mode) ∧
    ((check_side_switch s).1.gamemode = s.gamemode) := by
  unfold check_side_switch
  dsimp only
  split_ifs <;> simp

/-- When no normal set win and no 6-6 situation applies,
`check_set_winner` is the identity. -/
theorem check_set_winner_id (s : GameState)
    (h1 : ¬ set_win_cond s.game1 s.game2) (h2 : ¬ set_win_cond s.game2 s.game1)
    (h3 : ¬(s.game1 = 6 ∧ s.game2 = 6)) :
    check_set_winner s = (s, [], false) := by
  unfold check_set_winner
  simp only [h1, h2, if_false]
  have h4 : ¬(s.game1 = 6 ∧ s.game2 = 6 ∧ s.mode = Mode.normal) := by tauto
  simp [h4]

/-- `check_set_winner` keeps zeroed points and display scores at zero (all
its branches either leave points/scores alone or reset them). -/
theorem check_set_winner_points_zero (s : GameState)
    (h1 : s.point1 = 0) (h2 : s.point2 = 0) (h3 : s.score1 = 0) (h4 : s.score2 = 0) :
    ((check_set_winner s).1.point1 = 0) ∧ ((check_set_winner s).1.point2 = 0) ∧
    ((check_set_winner s).1.score1 = 0) ∧ ((check_set_winner s).1.score2 = 0) := by
  unfold check_set_winner
  dsimp only
  split_ifs <;>
    simp [add_to_history, trigger_basic_frame, check_match_winner_frame, h1, h2, h3, h4]

/-- A normal game win for black that neither completes the set nor
reaches 6-6: the games counter is incremented and points are reset, and
nothing else of the scoring state changes. -/
theorem handle_normal_game_win_black_no_set (s : GameState)
    (h1 : ¬ set_win_cond (s.game1 + 1) s.game2) (h2 : ¬ set_win_cond s.game2 (s.game1 + 1))
    (h3 : ¬(s.game1 + 1 = 6 ∧ s.game2 = 6)) :
    handle_normal_game_win "black" s =
      ({ s with game1 := s.game1 + 1, point1 := 0, point2 := 0, score1 := 0, score2 := 0 },
       []) := by
  have hid := check_set_winner_id
    { s with game1 := s.game1 + 1, point1 := 0, point2 := 0, score1 := 0, score2 := 0 }
    (by simpa using h1) (by simpa using h2) (by simpa using h3)
  unfold handle_normal_game_win reset_points
  simp [hid]

/-- A normal game win for yellow that neither completes the set nor
reaches 6-6. -/
theorem handle_normal_game_win_yellow_no_set (s : GameState)
    (h1 : ¬ set_win_cond s.game1 (s.game2 + 1)) (h2 : ¬ set_win_cond (s.game2 + 1) s.game1)
    (h3 : ¬(s.game1 = 6 ∧ s.game2 + 1 = 6)) :
    handle_normal_game_win "yellow" s =
      ({ s with game2 := s.game2 + 1, point1 := 0, point2 := 0, score1 := 0, score2 := 0 },
       []) := by
  have hid := check_set_winner_id
    { s with game2 := s.game2 + 1, point1 := 0, point2 := 0, score1 := 0, score2 := 0 }
    (by simpa using h1) (by simpa using h2) (by simpa using h3)
  unfold handle_normal_game_win reset_points
  simp [hid]

/-- After `handle_normal_game_win` the raw points and display scores are
always zero (they are reset before set evaluation, and set evaluation
keeps zeroed points at zero). -/
theorem handle_normal_game_win_points (team : String) (s : GameState) :
    ((handle_normal_game_win team s).1.point1 = 0) ∧
    ((handle_normal_game_win team s).1.point2 = 0) ∧
    ((handle_normal_game_win team s).1.score1 = 0) ∧
    ((handle_normal_game_win team s).1.score2 = 0) := by
  unfold handle_normal_game_win reset_points
  dsimp only
  by_cases ht : team = "black" <;> simp only [ht, if_true, if_false, reduceIte] <;>
    exact check_set_winner_points_zero _ rfl rfl rfl rfl

/-! ### History-growth lemmas -/

/-- Appending a history entry on top of an already-grown history yields a
nonempty growth over the original base. -/
theorem append_entry_exists (X : GameState) (base es0 : List HistoryEntry)
    (h : X.matchhistory = base ++ es0)
    (a tm : String) (sb sa gb ga stb sta : Nat × Nat) :
    ∃ es, es ≠ [] ∧
      ((add_to_history a tm sb sa gb ga stb sta X).matchhistory = base ++ es) :=
  ⟨es0 ++ [{ action := a, team := tm, scorebefore := sb, scoreafter := sa,
             gamebefore := gb, gameafter := ga, setbefore := stb, setafter := sta }],
   by simp, by simp [add_to_history, h]⟩

/-- `check_match_winner` after a state whose history already grew by one
entry: at least that entry survives, plus the `match` entry when the
check fires. -/
theorem check_match_winner_append_hist (sD : GameState) (base : List HistoryEntry)
    (e : HistoryEntry) (h : sD.matchhistory = base ++ [e]) :
    ∃ es, es ≠ [] ∧ ((check_match_winner sD).1.matchhistory = base ++ es) := by
  have hc := check_match_winner_hist sD
  by_cases hm2 : sD.set1 = 2 ∨ sD.set2 = 2
  · rw [if_pos hm2] at hc
    obtain ⟨e2, he2⟩ := hc
    exact ⟨[e] ++ [e2], by simp, by rw [he2, h, List.append_assoc]⟩
  · rw [if_neg hm2] at hc
    exact ⟨[e], by simp, by rw [hc, h]⟩

/-- As above, with the BASIC start-of-set trigger interposed (the trigger
never touches the history). -/
theorem check_match_winner_trigger_append_hist (sC : GameState) (base : List HistoryEntry)
    (e : HistoryEntry) (h : sC.matchhistory = base ++ [e]) :
    ∃ es, es ≠ [] ∧
      ((check_match_winner (trigger_basic_mode_side_switch_if_needed sC).1).1.matchhistory
        = base ++ es) := by
  apply check_match_winner_append_hist _ _ e
  rw [(trigger_basic_frame sC).2.2.2.2.2.2.2.2.2.1, h]

/-- History growth of `check_set_winner` from an unfinished match: the
history only grows, and certainly grows when the check reports a match
win. -/
theorem check_set_winner_hist (s : GameState) (hw : s.matchwon = false) :
    ∃ es, ((check_set_winner s).1.matchhistory = s.matchhistory ++ es) ∧
      (((check_set_winner s).1.matchwon = true) → es ≠ []) := by
  have key : ∀ (sC : GameState) (e : HistoryEntry),
      sC.matchhistory = s.matchhistory ++ [e] →
      ∃ es, ((check_match_winner (trigger_basic_mode_side_switch_if_needed sC).1).1.matchhistory
          = s.matchhistory ++ es) ∧
        (((check_match_winner (trigger_basic_mode_side_switch_if_needed sC).1).1.matchwon
            = true) → es ≠ []) := by
    intro sC e h
    obtain ⟨es, hne, hes⟩ := check_match_winner_trigger_append_hist sC s.matchhistory e h
    exact ⟨es, hes, fun _ => hne⟩
  unfold check_set_winner
  dsimp only
  split_ifs
  · exact key _ _ (by rfl)
  · exact key _ _ (by rfl)
  · exact ⟨[], by simp, by simp [hw]⟩
  · exact ⟨[], by simp, by simp [hw]⟩
  · exact ⟨[], by simp, by simp [hw]⟩
  · exact ⟨[], by simp, by simp [hw]⟩

/-- History growth of a normal game win from an unfinished match. -/
theorem handle_normal_game_win_hist (team : String) (s : GameState)
    (hw : s.matchwon = false) :
    ∃ es, ((handle_normal_game_win team s).1.matchhistory = s.matchhistory ++ es) ∧
      (((handle_normal_game_win team s).1.matchwon = true) → es ≠ []) := by
  unfold handle_normal_game_win reset_points
  dsimp only
  by_cases ht : team = "black" <;> simp only [ht, reduceIte]
  · have key := check_set_winner_hist
      { s with game1 := s.game1 + 1, point1 := 0, point2 := 0, score1 := 0, score2 := 0 }
      (by simp [hw])
    simpa using key
  · have key := check_set_winner_hist
      { s with game2 := s.game2 + 1, point1 := 0, point2 := 0, score1 := 0, score2 := 0 }
      (by simp [hw])
    simpa using key

/-- A tie-break win always grows the history (it records the set, and
possibly the match). -/
theorem handle_tiebreak_win_hist (team : String) (s : GameState) :
    ∃ es, es ≠ [] ∧
      ((handle_tiebreak_win team s).1.matchhistory = s.matchhistory ++ es) := by
  unfold handle_tiebreak_win reset_points
  dsimp only
  by_cases ht : team = "black" <;> simp only [ht, reduceIte] <;>
    exact check_match_winner_trigger_append_hist _ s.matchhistory _ (by rfl)

/-- A super-tie-break win always grows the history. -/
theorem handle_supertiebreak_win_hist (team : String) (s : GameState) :
    ∃ es, es ≠ [] ∧
      ((handle_supertiebreak_win team s).1.matchhistory = s.matchhistory ++ es) := by
  unfold handle_supertiebreak_win reset_points
  dsimp only
  by_cases ht : team = "black" <;> simp only [ht, reduceIte] <;>
    exact check_match_winner_append_hist _ s.matchhistory _ (by rfl)

/-! ## Claim theorems -/

/-- C1: in NORMAL scoring mode, an accepted `process_add_point` first
increments the scorer's raw point counter, and a game is won exactly when
the incremented points `p` satisfy `p ≥ 4 ∧ p - opponent ≥ 2`
(`normal_game_win_cond`): with no win, the incremented point survives and
games/sets/set history are untouched; on a win both raw point counters
(and display scores) end at 0, and — whenever the resulting games total
neither completes the set nor reaches 6-6 — exactly the scorer's games
counter is incremented by exactly 1, the other games counter and the
sets being unchanged. Stated for both teams. -/
theorem applyPoint_normal_game_win_exact (s : GameState)
    (hm : s.mode = Mode.normal) (hw : s.matchwon = false) (ha : s.scoreboard_active = true) :
    (((process_add_point "black" s).2.2 = ApiResult.ok) ∧
     (¬ normal_game_win_cond (s.point1 + 1) s.point2 →
       ((process_add_point "black" s).1.point1 = s.point1 + 1 ∧
        (process_add_point "black" s).1.point2 = s.point2 ∧
        (process_add_point "black" s).1.game1 = s.game1 ∧
        (process_add_point "black" s).1.game2 = s.game2 ∧
        (process_add_point "black" s).1.set1 = s.set1 ∧
        (process_add_point "black" s).1.set2 = s.set2 ∧
        (process_add_point "black" s).1.sethistory = s.sethistory)) ∧
     (normal_game_win_cond (s.point1 + 1) s.point2 →
       ((process_add_point "black" s).1.point1 = 0 ∧
        (process_add_point "black" s).1.point2 = 0 ∧
        (process_add_point "black" s).1.score1 = 0 ∧
        (process_add_point "black" s).1.score2 = 0)) ∧
     (normal_game_win_cond (s.point1 + 1) s.point2 →
      ¬ set_win_cond (s.game1 + 1) s.game2 → ¬ set_win_cond s.game2 (s.game1 + 1) →
      ¬(s.game1 + 1 = 6 ∧ s.game2 = 6) →
       ((process_add_point "black" s).1.game1 = s.game1 + 1 ∧
        (process_add_point "black" s).1.game2 = s.game2 ∧
        (process_add_point "black" s).1.set1 = s.set1 ∧
        (process_add_point "black" s).1.set2 = s.set2 ∧
        (process_add_point "black" s).1.sethistory = s.sethistory))) ∧
    (((process_add_point "yellow" s).2.2 = ApiResult.ok) ∧
     (¬ normal_game_win_cond (s.point2 + 1) s.point1 →
       ((process_add_point "yellow" s).1.point2 = s.point2 + 1 ∧
        (process_add_point "yellow" s).1.point1 = s.point1 ∧
        (process_add_point "yellow" s).1.game1 = s.game1 ∧
        (process_add_point "yellow" s).1.game2 = s.game2 ∧
        (process_add_point "yellow" s).1.set1 = s.set1 ∧
        (process_add_point "yellow" s).1.set2 = s.set2 ∧
        (process_add_point "yellow" s).1.sethistory = s.sethistory)) ∧
     (normal_game_win_cond (s.point2 + 1) s.point1 →
       ((process_add_point "yellow" s).1.point1 = 0 ∧
        (process_add_point "yellow" s).1.point2 = 0 ∧
        (process_add_point "yellow" s).1.score1 = 0 ∧
        (process_add_point "yellow" s).1.score2 = 0)) ∧
     (normal_game_win_cond (s.point2 + 1) s.point1 →
      ¬ set_win_cond s.game1 (s.game2 + 1) → ¬ set_win_cond (s.game2 + 1) s.game1 →
      ¬(s.game1 = 6 ∧ s.game2 + 1 = 6) →
       ((process_add_point "yellow" s).1.game2 = s.game2 + 1 ∧
        (process_add_point "yellow" s).1.game1 = s.game1 ∧
        (process_add_point "yellow" s).1.set1 = s.set1 ∧
        (process_add_point "yellow" s).1.set2 = s.set2 ∧
        (process_add_point "yellow" s).1.sethistory = s.sethistory))) := by
  unfold process_add_point
  refine ⟨⟨?_, ?_, ?_, ?_⟩, ⟨?_, ?_, ?_, ?_⟩⟩
  · simp [hw, ha]
  · intro hc
    simp [hw, ha, hm, hc, add_to_history, set_normal_score_from_points]
  · intro hc
    simp only [hw, ha, hm]
    simp only [Bool.false_eq_true, if_false, if_true, reduceIte]
    simp [hc, add_to_history, set_normal_score_from_points,
      handle_normal_game_win_points, check_side_switch_frame]
    split_ifs <;>
      simp [add_to_history, check_side_switch_frame, handle_normal_game_win_points]
  · intro hc h1 h2 h3
    have hx := handle_normal_game_win_black_no_set
      { s with point1 := s.point1 + 1, score1 := map_point (s.point1 + 1),
               score2 := map_point s.point2, matchwon := false, mode := Mode.normal,
               scoreboard_active := true }
      (by simpa using h1) (by simpa using h2) (by simpa using h3)
    simp [hw, ha, hm, hc, hx, add_to_history, set_normal_score_from_points,
      check_side_switch_frame]
    split_ifs <;> simp [check_side_switch_frame]
  · simp [hw, ha]
  · intro hc
    simp [hw, ha, hm, hc, add_to_history, set_normal_score_from_points]
  · intro hc
    simp only [hw, ha, hm]
    simp only [Bool.false_eq_true, if_false, if_true, reduceIte]
    simp [hc, add_to_history, set_normal_score_from_points,
      handle_normal_game_win_points, check_side_switch_frame]
    split_ifs <;>
      simp [add_to_history, check_side_switch_frame, handle_normal_game_win_points]
  · intro hc h1 h2 h3
    have hx := handle_normal_game_win_yellow_no_set
      { s with point2 := s.point2 + 1, score1 := map_point s.point1,
               score2 := map_point (s.point2 + 1), matchwon := false, mode := Mode.normal,
               scoreboard_active := true }
      (by simpa using h1) (by simpa using h2) (by simpa using h3)
    simp [hw, ha, hm, hc, hx, add_to_history, set_normal_score_from_points,
      check_side_switch_frame]
    split_ifs <;> simp [check_side_switch_frame]

/-- A concrete armed NORMAL-mode state with points 3-0 (display 40-0),
used as the C1 witness input. -/
def armed_three_zero_state : GameState :=
  { initial_game_state with
    scoreboard_active := true
    gamemode := some GameMode.competition
    point1 := 3, score1 := 40 }

/-- Witness for C1: from points 3-0, a black point wins the game, giving
games 1-0 and points reset to 0-0. -/
theorem applyPoint_normal_game_win_witness :
    ((process_add_point "black" armed_three_zero_state).1.game1 = 1) ∧
    ((process_add_point "black" armed_three_zero_state).1.game2 = 0) ∧
    ((process_add_point "black" armed_three_zero_state).1.point1 = 0) ∧
    ((process_add_point "black" armed_three_zero_state).1.point2 = 0) :=
  have h := applyPoint_normal_game_win_exact armed_three_zero_state rfl rfl rfl
  have hwin := h.1.2.2.1 (by decide)
  have hgames := h.1.2.2.2 (by decide) (by decide) (by decide) (by decide)
  ⟨by simpa using hgames.1, by simpa using hgames.2.1, hwin.1, hwin.2.1⟩

/-- C2: once `matchwon` is true, `process_add_point` and
`process_subtract_point` return the state completely unchanged (hence
every score field — points, display score, games, sets, scoring mode,
set history — is untouched), emit no broadcast, and report the
match-already-complete rejection. -/
theorem matchComplete_rejects_and_preserves_state
    (s : GameState) (t u : String) (h : s.matchwon = true) :
    process_add_point t s = (s, [], ApiResult.matchAlreadyComplete) ∧
    process_subtract_point u s = (s, [], ApiResult.matchAlreadyComplete) := by
  unfold process_add_point process_subtract_point
  simp [h]

/-- Witness for C2 at a concrete completed-match state. -/
theorem matchComplete_rejects_witness :
    process_add_point "black" { initial_game_state with matchwon := true } =
      ({ initial_game_state with matchwon := true }, [], ApiResult.matchAlreadyComplete) ∧
    process_subtract_point "yellow" { initial_game_state with matchwon := true } =
      ({ initial_game_state with matchwon := true }, [], ApiResult.matchAlreadyComplete) :=
  matchComplete_rejects_and_preserves_state
    { initial_game_state with matchwon := true } "black" "yellow" rfl

/-- C4: at 6-6 in NORMAL scoring mode, `check_set_winner` records no set
win (sets and set history unchanged), enters TIEBREAK when sets are 0-0,
1-0 or 0-1 and SUPER_TIEBREAK when sets are 1-1, and in either case
resets points and display scores to 0 while games stay 6-6. -/
theorem tiebreak_entry_at_six_six (s : GameState)
    (hg1 : s.game1 = 6) (hg2 : s.game2 = 6) (hm : s.mode = Mode.normal)
    (hsets : (s.set1 = 0 ∧ s.set2 = 0) ∨ (s.set1 = 1 ∧ s.set2 = 0) ∨
             (s.set1 = 0 ∧ s.set2 = 1) ∨ (s.set1 = 1 ∧ s.set2 = 1)) :
    ((check_set_winner s).1.set1 = s.set1) ∧ ((check_set_winner s).1.set2 = s.set2) ∧
    ((check_set_winner s).1.sethistory = s.sethistory) ∧
    ((check_set_winner s).1.matchhistory = s.matchhistory) ∧
    ((check_set_winner s).1.game1 = 6) ∧ ((check_set_winner s).1.game2 = 6) ∧
    ((check_set_winner s).1.point1 = 0) ∧ ((check_set_winner s).1.point2 = 0) ∧
    ((check_set_winner s).1.score1 = 0) ∧ ((check_set_winner s).1.score2 = 0) ∧
    ((check_set_winner s).1.matchwon = s.matchwon) ∧
    (((s.set1 = 0 ∧ s.set2 = 0) ∨ (s.set1 = 1 ∧ s.set2 = 0) ∨ (s.set1 = 0 ∧ s.set2 = 1)) →
      (check_set_winner s).1.mode = Mode.tiebreak) ∧
    ((s.set1 = 1 ∧ s.set2 = 1) → (check_set_winner s).1.mode = Mode.supertiebreak) := by
  have hw1 : ¬ set_win_cond s.game1 s.game2 := by
    simp [set_win_cond, hg1, hg2]
  have hw2 : ¬ set_win_cond s.game2 s.game1 := by
    simp [set_win_cond, hg1, hg2]
  unfold check_set_winner
  dsimp only
  rw [if_neg hw1, if_neg hw2, if_pos ⟨hg1, hg2, hm⟩]
  rcases hsets with ⟨ha, hb⟩ | ⟨ha, hb⟩ | ⟨ha, hb⟩ | ⟨ha, hb⟩ <;>
    simp [ha, hb, hg1, hg2]

/-- A concrete 6-6 state with sets 1-1, used as the C4 witness input. -/
def six_six_decider_state : GameState :=
  { initial_game_state with game1 := 6, game2 := 6, set1 := 1, set2 := 1 }

/-- Witness for C4 at a concrete 6-6 state with sets 1-1 (decider). -/
theorem tiebreak_entry_witness :
    (check_set_winner six_six_decider_state).1.mode = Mode.supertiebreak ∧
    (check_set_winner six_six_decider_state).1.point1 = 0 :=
  have h := tiebreak_entry_at_six_six six_six_decider_state
    rfl rfl rfl (Or.inr (Or.inr (Or.inr ⟨rfl, rfl⟩)))
  ⟨h.2.2.2.2.2.2.2.2.2.2.2.2 ⟨rfl, rfl⟩, h.2.2.2.2.2.2.1⟩

/-- C5: an accepted `process_subtract_point` decrements only the named
team's raw point counter (truncated `Nat` subtraction is the floor at 0),
recomputes the display score by the same mode-dependent mapping as
`process_add_point` (`map_point` in NORMAL mode, identity in the
tie-break modes), leaves games, sets, scoring mode, game mode and set
history unchanged, keeps all previously appended history entries and
appends exactly one `point_subtract` entry. -/
theorem applySubtract_effects (s : GameState) (t : String)
    (hw : s.matchwon = false) (ha : s.scoreboard_active = true) :
    ((process_subtract_point t s).2.2 = ApiResult.ok) ∧
    (t = "black" → (process_subtract_point t s).1.point1 = s.point1 - 1 ∧
                   (process_subtract_point t s).1.point2 = s.point2) ∧
    (t ≠ "black" → (process_subtract_point t s).1.point2 = s.point2 - 1 ∧
                   (process_subtract_point t s).1.point1 = s.point1) ∧
    (s.mode = Mode.normal →
      (process_subtract_point t s).1.score1 = map_point ((process_subtract_point t s).1.point1) ∧
      (process_subtract_point t s).1.score2 = map_point ((process_subtract_point t s).1.point2)) ∧
    (s.mode ≠ Mode.normal →
      (process_subtract_point t s).1.score1 = (process_subtract_point t s).1.point1 ∧
      (process_subtract_point t s).1.score2 = (process_subtract_point t s).1.point2) ∧
    ((process_subtract_point t s).1.game1 = s.game1) ∧
    ((process_subtract_point t s).1.game2 = s.game2) ∧
    ((process_subtract_point t s).1.set1 = s.set1) ∧
    ((process_subtract_point t s).1.set2 = s.set2) ∧
    ((process_subtract_point t s).1.mode = s.mode) ∧
    ((process_subtract_point t s).1.gamemode = s.gamemode) ∧
    ((process_subtract_point t s).1.sethistory = s.sethistory) ∧
    ((process_subtract_point t s).1.matchwon = false) ∧
    (∃ e : HistoryEntry, e.action = "point_subtract" ∧
      (process_subtract_point t s).1.matchhistory = s.matchhistory ++ [e]) := by
  unfold process_subtract_point
  by_cases ht : t = "black" <;> by_cases hm : s.mode = Mode.normal <;>
    simp [hw, ha, ht, hm, add_to_history, set_normal_score_from_points]

/-- A concrete armed NORMAL-mode state with points 2-1, used as the C5
witness input. -/
def armed_two_one_state : GameState :=
  { initial_game_state with
    scoreboard_active := true
    gamemode := some GameMode.competition
    point1 := 2, point2 := 1, score1 := 30, score2 := 15 }

/-- Witness for C5 at a concrete armed state with points 2-1, subtracting
from yellow in NORMAL mode. -/
theorem applySubtract_effects_witness :
    ((process_subtract_point "yellow" armed_two_one_state).1.point2 = 0) ∧
    ((process_subtract_point "yellow" armed_two_one_state).1.game1 = 0) :=
  have h := applySubtract_effects armed_two_one_state "yellow" rfl rfl
  ⟨(h.2.2.1 (by decide)).1, h.2.2.2.2.2.1⟩

/-- A concrete armed TIEBREAK state at games 6-6, points 6-5 (yellow one
point from winning the tie-break with black at 5), used for C3. -/
def tiebreak_yellow_edge_state : GameState :=
  { initial_game_state with
    scoreboard_active := true
    gamemode := some GameMode.competition
    mode := Mode.tiebreak
    game1 := 6, game2 := 6, point1 := 5, point2 := 6, score1 := 5, score2 := 6 }

/-- A concrete armed SUPER_TIEBREAK decider state (sets 1-1, games 6-6,
points 9-3), used for C3. -/
def supertiebreak_edge_state : GameState :=
  { initial_game_state with
    scoreboard_active := true
    gamemode := some GameMode.competition
    mode := Mode.supertiebreak
    set1 := 1, set2 := 1
    game1 := 6, game2 := 6, point1 := 9, point2 := 3, score1 := 9, score2 := 3
    sethistory := ["7-5", "4-6"] }

/-- With a game mode other than BASIC, a tie-break win emits no
broadcast from inside the handler (the only candidate is the BASIC
start-of-set trigger). -/
theorem handle_tiebreak_win_events (team : String) (s : GameState)
    (h : s.gamemode ≠ some GameMode.basic) :
    (handle_tiebreak_win team s).2 = [] := by
  unfold handle_tiebreak_win
  dsimp only
  rw [trigger_basic_not_basic]
  · by_cases ht : team = "black" <;> simp [ht, add_to_history, reset_points, h]

/-- A super-tie-break win emits no broadcast from inside the handler. -/
theorem handle_supertiebreak_win_events (team : String) (s : GameState) :
    (handle_supertiebreak_win team s).2 = [] := by
  unfold handle_supertiebreak_win
  dsimp only

/-- C7: in COMPETITION or LOCK game mode, after an accepted point that
completes a NORMAL game while the set continues in NORMAL mode (no set
win, no 6-6), `shouldswitchsides` is set to true exactly when the
cumulative game count of the set is odd and to false when it is even,
and a `sideswitchrequired` broadcast is emitted exactly in the odd case;
in TIEBREAK or SUPER_TIEBREAK mode, `process_add_point` never emits a
`sideswitchrequired` broadcast through this path. -/
theorem competition_side_switch_after_odd_games (s : GameState) (t : String)
    (hgm : s.gamemode = some GameMode.competition ∨ s.gamemode = some GameMode.lock)
    (hw : s.matchwon = false) (ha : s.scoreboard_active = true) :
    ((s.mode = Mode.normal → normal_game_win_cond (s.point1 + 1) s.point2 →
      ¬ set_win_cond (s.game1 + 1) s.game2 → ¬ set_win_cond s.game2 (s.game1 + 1) →
      ¬(s.game1 + 1 = 6 ∧ s.game2 = 6) →
      (((process_add_point "black" s).1.shouldswitchsides = true ↔
         (s.game1 + 1 + s.game2) % 2 = 1) ∧
       ((∃ n g ss, Evt.sideswitch n g ss ∈ (process_add_point "black" s).2.1) ↔
         (s.game1 + 1 + s.game2) % 2 = 1))) ∧
     (s.mode = Mode.normal → normal_game_win_cond (s.point2 + 1) s.point1 →
      ¬ set_win_cond s.game1 (s.game2 + 1) → ¬ set_win_cond (s.game2 + 1) s.game1 →
      ¬(s.game1 = 6 ∧ s.game2 + 1 = 6) →
      (((process_add_point "yellow" s).1.shouldswitchsides = true ↔
         (s.game1 + (s.game2 + 1)) % 2 = 1) ∧
       ((∃ n g ss, Evt.sideswitch n g ss ∈ (process_add_point "yellow" s).2.1) ↔
         (s.game1 + (s.game2 + 1)) % 2 = 1)))) ∧
    ((s.mode = Mode.tiebreak ∨ s.mode = Mode.supertiebreak) →
      ∀ n g ss, Evt.sideswitch n g ss ∉ (process_add_point t s).2.1) := by
  have hnb : s.gamemode ≠ some GameMode.basic := by
    rcases hgm with h | h <;> simp [h]
  refine ⟨⟨?_, ?_⟩, ?_⟩
  · intro hmo hc h1 h2 h3
    unfold process_add_point
    have hx := handle_normal_game_win_black_no_set
      { s with point1 := s.point1 + 1, score1 := map_point (s.point1 + 1),
               score2 := map_point s.point2, matchwon := false, mode := Mode.normal,
               scoreboard_active := true }
      (by simpa using h1) (by simpa using h2) (by simpa using h3)
    by_cases hodd : (s.game1 + 1 + s.game2) % 2 = 1 <;>
      simp [hw, ha, hmo, hc, hx, hnb, hodd, add_to_history,
        set_normal_score_from_points, check_side_switch, broadcast_sideswitch_evt]
  · intro hmo hc h1 h2 h3
    unfold process_add_point
    have hx := handle_normal_game_win_yellow_no_set
      { s with point2 := s.point2 + 1, score1 := map_point s.point1,
               score2 := map_point (s.point2 + 1), matchwon := false, mode := Mode.normal,
               scoreboard_active := true }
      (by simpa using h1) (by simpa using h2) (by simpa using h3)
    by_cases hodd : (s.game1 + (s.game2 + 1)) % 2 = 1 <;>
      simp [hw, ha, hmo, hc, hx, hnb, hodd, add_to_history,
        set_normal_score_from_points, check_side_switch, broadcast_sideswitch_evt]
  · intro hmode n g ss
    unfold process_add_point
    rcases hmode with hmo | hmo
    · by_cases ht : t = "black"
      · by_cases hcnd : tiebreak_win_cond (s.point1 + 1) s.point2
        · have hev := handle_tiebreak_win_events "black"
            { s with point1 := s.point1 + 1, score1 := s.point1 + 1, score2 := s.point2,
                     matchwon := false, mode := Mode.tiebreak, scoreboard_active := true }
            (by simpa using hnb)
          simp [hw, ha, hmo, ht, hcnd, hev, add_to_history]
          split_ifs <;> simp
        · simp [hw, ha, hmo, ht, hcnd, add_to_history]
      · by_cases hcnd : tiebreak_win_cond (s.point2 + 1) s.point1
        · have hev := handle_tiebreak_win_events "yellow"
            { s with point2 := s.point2 + 1, score1 := s.point1, score2 := s.point2 + 1,
                     matchwon := false, mode := Mode.tiebreak, scoreboard_active := true }
            (by simpa using hnb)
          simp [hw, ha, hmo, ht, hcnd, hev, add_to_history]
          split_ifs <;> simp
        · simp [hw, ha, hmo, ht, hcnd, add_to_history]
    · by_cases ht : t = "black"
      · by_cases hcnd : supertiebreak_win_cond (s.point1 + 1) s.point2
        · have hev := handle_supertiebreak_win_events "black"
            { s with point1 := s.point1 + 1, score1 := s.point1 + 1, score2 := s.point2,
                     matchwon := false, mode := Mode.supertiebreak, scoreboard_active := true }
          simp [hw, ha, hmo, ht, hcnd, hev, add_to_history]
          split_ifs <;> simp
        · simp [hw, ha, hmo, ht, hcnd, add_to_history]
      · by_cases hcnd : supertiebreak_win_cond (s.point2 + 1) s.point1
        · have hev := handle_supertiebreak_win_events "yellow"
            { s with point2 := s.point2 + 1, score1 := s.point1, score2 := s.point2 + 1,
                     matchwon := false, mode := Mode.supertiebreak, scoreboard_active := true }
          simp [hw, ha, hmo, ht, hcnd, hev, add_to_history]
          split_ifs <;> simp
        · simp [hw, ha, hmo, ht, hcnd, add_to_history]

/-- Witness for C7: from 3-0 in the first game (COMPETITION), black's
game win makes the games total 1 (odd) — the switch flag is raised and a
`sideswitchrequired` broadcast is emitted; in a TIEBREAK state, a yellow
tie-break win emits no `sideswitchrequired`. -/
theorem competition_side_switch_witness :
    ((process_add_point "black" armed_three_zero_state).1.shouldswitchsides = true) ∧
    (∃ n g ss, Evt.sideswitch n g ss ∈ (process_add_point "black" armed_three_zero_state).2.1) ∧
    (Evt.sideswitch 1 "1-0" "0-0" ∉
      (process_add_point "yellow" tiebreak_yellow_edge_state).2.1) :=
  have hA := (competition_side_switch_after_odd_games armed_three_zero_state "black"
    (Or.inl (by rfl)) rfl rfl).1.1 rfl (by decide) (by decide) (by decide) (by decide)
  have hB := (competition_side_switch_after_odd_games tiebreak_yellow_edge_state "yellow"
    (Or.inl (by rfl)) rfl rfl).2 (Or.inl (by rfl)) 1 "1-0" "0-0"
  ⟨hA.1.mpr (by decide), hA.2.mpr (by decide), hB⟩

/-- C3 counterexample: (a) a yellow tie-break win with black at 5 points
appends the label `"6-7(5)"`, not one of the form `"7-6(loserPoints)"`;
(b) a super-tie-break win does not reset games — they stay 6-6 — even
though the set is recorded and the winner's sets counter is incremented. -/
theorem tiebreak_win_label_and_stb_games_counterexample :
    ((process_add_point "yellow" tiebreak_yellow_edge_state).1.sethistory = ["6-7(5)"]) ∧
    ((process_add_point "black" supertiebreak_edge_state).1.sethistory =
      ["7-5", "4-6", "10-3(STB)"]) ∧
    ((process_add_point "black" supertiebreak_edge_state).1.set1 = 2) ∧
    ((process_add_point "black" supertiebreak_edge_state).1.game1 = 6) ∧
    ((process_add_point "black" supertiebreak_edge_state).1.game2 = 6) := by
  decide

/-- C3 as amended: a tie-break or super-tie-break win always ends the
set: it appends the set-history label — `"7-6(loser)"` for a black
tie-break win, `"6-7(loser)"` for a yellow one, `"10-loser(STB)"` for a
black super-tie-break win, `"loser-10(STB)"` for a yellow one —
increments only the winner's sets counter, resets both raw points and
display scores, sets the scoring mode back to NORMAL and re-evaluates
match completion; a normal tie-break win also resets games to 0-0, while
a super-tie-break win leaves the games counters unchanged. -/
theorem tiebreak_and_supertiebreak_win_effects (s : GameState) (hw : s.matchwon = false) :
    (((handle_tiebreak_win "black" s).1.sethistory =
        s.sethistory ++ ["7-6" ++ ("(" ++ toString s.point2 ++ ")")]) ∧
     ((handle_tiebreak_win "black" s).1.set1 = s.set1 + 1) ∧
     ((handle_tiebreak_win "black" s).1.set2 = s.set2) ∧
     ((handle_tiebreak_win "black" s).1.game1 = 0) ∧
     ((handle_tiebreak_win "black" s).1.game2 = 0) ∧
     ((handle_tiebreak_win "black" s).1.point1 = 0) ∧
     ((handle_tiebreak_win "black" s).1.point2 = 0) ∧
     ((handle_tiebreak_win "black" s).1.score1 = 0) ∧
     ((handle_tiebreak_win "black" s).1.score2 = 0) ∧
     ((handle_tiebreak_win "black" s).1.mode = Mode.normal) ∧
     ((handle_tiebreak_win "black" s).1.matchwon = true ↔ s.set1 + 1 = 2 ∨ s.set2 = 2)) ∧
    (((handle_tiebreak_win "yellow" s).1.sethistory =
        s.sethistory ++ ["6-7" ++ ("(" ++ toString s.point1 ++ ")")]) ∧
     ((handle_tiebreak_win "yellow" s).1.set2 = s.set2 + 1) ∧
     ((handle_tiebreak_win "yellow" s).1.set1 = s.set1) ∧
     ((handle_tiebreak_win "yellow" s).1.game1 = 0) ∧
     ((handle_tiebreak_win "yellow" s).1.game2 = 0) ∧
     ((handle_tiebreak_win "yellow" s).1.point1 = 0) ∧
     ((handle_tiebreak_win "yellow" s).1.point2 = 0) ∧
     ((handle_tiebreak_win "yellow" s).1.mode = Mode.normal) ∧
     ((handle_tiebreak_win "yellow" s).1.matchwon = true ↔ s.set1 = 2 ∨ s.set2 + 1 = 2)) ∧
    (((handle_supertiebreak_win "black" s).1.sethistory =
        s.sethistory ++ ["10-" ++ toString s.point2 ++ "(STB)"]) ∧
     ((handle_supertiebreak_win "black" s).1.set1 = s.set1 + 1) ∧
     ((handle_supertiebreak_win "black" s).1.set2 = s.set2) ∧
     ((handle_supertiebreak_win "black" s).1.game1 = s.game1) ∧
     ((handle_supertiebreak_win "black" s).1.game2 = s.game2) ∧
     ((handle_supertiebreak_win "black" s).1.point1 = 0) ∧
     ((handle_supertiebreak_win "black" s).1.point2 = 0) ∧
     ((handle_supertiebreak_win "black" s).1.score1 = 0) ∧
     ((handle_supertiebreak_win "black" s).1.score2 = 0) ∧
     ((handle_supertiebreak_win "black" s).1.mode = Mode.normal) ∧
     ((handle_supertiebreak_win "black" s).1.matchwon = true ↔ s.set1 + 1 = 2 ∨ s.set2 = 2)) ∧
    (((handle_supertiebreak_win "yellow" s).1.sethistory =
        s.sethistory ++ [toString s.point1 ++ "-10(STB)"]) ∧
     ((handle_supertiebreak_win "yellow" s).1.set2 = s.set2 + 1) ∧
     ((handle_supertiebreak_win "yellow" s).1.set1 = s.set1) ∧
     ((handle_supertiebreak_win "yellow" s).1.game1 = s.game1) ∧
     ((handle_supertiebreak_win "yellow" s).1.game2 = s.game2) ∧
     ((handle_supertiebreak_win "yellow" s).1.point1 = 0) ∧
     ((handle_supertiebreak_win "yellow" s).1.point2 = 0) ∧
     ((handle_supertiebreak_win "yellow" s).1.mode = Mode.normal) ∧
     ((handle_supertiebreak_win "yellow" s).1.matchwon = true ↔ s.set1 = 2 ∨ s.set2 + 1 = 2)) := by
  unfold handle_tiebreak_win handle_supertiebreak_win reset_points
  dsimp only
  simp only [reduceIte, String.reduceEq]
  refine ⟨?_, ?_, ?_, ?_⟩ <;>
    simp [add_to_history, trigger_basic_frame, check_match_winner_frame,
      check_match_winner_matchwon, hw]

/-- Witness for C3 (amended) at the concrete super-tie-break decider
state: black's STB win records `"10-3(STB)"`, leaves games 6-6 and wins
the match. -/
theorem tiebreak_and_supertiebreak_win_effects_witness :
    ((handle_supertiebreak_win "black" supertiebreak_edge_state).1.sethistory =
      ["7-5", "4-6", "10-3(STB)"]) ∧
    ((handle_supertiebreak_win "black" supertiebreak_edge_state).1.game1 = 6) ∧
    ((handle_supertiebreak_win "black" supertiebreak_edge_state).1.matchwon = true) :=
  have h := (tiebreak_and_supertiebreak_win_effects supertiebreak_edge_state rfl).2.2.1
  ⟨h.1, h.2.2.2.1, h.2.2.2.2.2.2.2.2.2.2.mpr (Or.inl rfl)⟩

/-- C8 counterexample: in the backend it is the selection of BASIC mode
itself — not the first admitted point — that triggers the immediate
`sideswitchrequired` event on a fresh set: after `set_game_mode "basic"`
on the initial state the switch flag is already raised and the event was
already broadcast, and the first `process_add_point` emits only the
game-state and point broadcasts, no `sideswitchrequired`. -/
theorem basic_first_point_switch_counterexample :
    ((set_game_mode "basic" initial_game_state).1.shouldswitchsides = true) ∧
    ((set_game_mode "basic" initial_game_state).2.1 =
      [Evt.sideswitch 0 "0-0" "0-0", Evt.gamestateB]) ∧
    ((process_add_point "black" (set_game_mode "basic" initial_game_state).1).2.1 =
      [Evt.gamestateB, Evt.pointscoredB "black" "point"]) := by
  decide

/-- C8 as amended: selecting BASIC game mode on a fresh set (games 0-0,
sets 0-0, start-of-set switch not yet done) immediately raises
`shouldswitchsides` and broadcasts `sideswitchrequired` — before any
point is played — and the start-of-set switch fires at most once per set:
once `initial_switch_done` is set, the trigger does nothing. -/
theorem basic_mode_switch_on_selection (s : GameState)
    (hg1 : s.game1 = 0) (hg2 : s.game2 = 0) (hs1 : s.set1 = 0) (hs2 : s.set2 = 0)
    (hd : s.initial_switch_done = false) :
    ((set_game_mode "basic" s).1.shouldswitchsides = true) ∧
    ((set_game_mode "basic" s).1.initial_switch_done = true) ∧
    ((set_game_mode "basic" s).2.1 = [Evt.sideswitch 0 "0-0" "0-0", Evt.gamestateB]) ∧
    (∀ s2 : GameState, s2.initial_switch_done = true →
      trigger_basic_mode_side_switch_if_needed s2 = (s2, [])) := by
  refine ⟨?_, ?_, ?_, fun s2 h2 => trigger_basic_done s2 h2⟩
  · simp [set_game_mode, trigger_basic_mode_side_switch_if_needed,
      broadcast_sideswitch_evt, hg1, hg2, hs1, hs2, hd]
  · simp [set_game_mode, trigger_basic_mode_side_switch_if_needed,
      broadcast_sideswitch_evt, hg1, hg2, hs1, hs2, hd]
  · simp [set_game_mode, trigger_basic_mode_side_switch_if_needed,
      broadcast_sideswitch_evt, hg1, hg2, hs1, hs2, hd]
    rfl

/-- Witness for C8 (amended) at the initial state. -/
theorem basic_mode_switch_on_selection_witness :
    ((set_game_mode "basic" initial_game_state).1.initial_switch_done = true) ∧
    (trigger_basic_mode_side_switch_if_needed
        (set_game_mode "basic" initial_game_state).1 =
      ((set_game_mode "basic" initial_game_state).1, [])) :=
  have h := basic_mode_switch_on_selection initial_game_state rfl rfl rfl rfl rfl
  ⟨h.2.1, h.2.2.2 (set_game_mode "basic" initial_game_state).1 h.2.1⟩

/-- C9: the sensor-event admission debounce. For two events from the same
source where the first is admitted: the second is dropped (with no state
change) when its timestamp is less than `SENSOR_DEBOUNCE_MS` after the
first, and admitted when it is at least the window later. The two
sources' last-accepted timestamps are independent: an event from the
other source neither changes this source's timestamp nor affects the
admission decision for this source's next event. -/
theorem debounce_window_and_source_independence
    (l : LastSensorTime) (t u : SensorTeam) (t1 t2 now : Int) (hne : t ≠ u) :
    ((handleSensorInput_debounce l t t1).1 = true →
      ((t2 - t1 < SENSOR_DEBOUNCE_MS →
        handleSensorInput_debounce (handleSensorInput_debounce l t t1).2 t t2 =
          (false, (handleSensorInput_debounce l t t1).2)) ∧
       (SENSOR_DEBOUNCE_MS ≤ t2 - t1 →
        (handleSensorInput_debounce (handleSensorInput_debounce l t t1).2 t t2).1 = true))) ∧
    (lastTimeOf (handleSensorInput_debounce l u now).2 t = lastTimeOf l t) ∧
    ((handleSensorInput_debounce (handleSensorInput_debounce l u now).2 t t2).1 =
      (handleSensorInput_debounce l t t2).1) := by
  cases t <;> cases u <;> (try exact absurd rfl hne) <;>
    unfold handleSensorInput_debounce lastTimeOf setLastTime SENSOR_DEBOUNCE_MS <;>
    dsimp only <;>
    split_ifs <;> simp_all

/-- Witness for C9: from zeroed timestamps, black admitted at 1000 ms,
dropped at 1100 ms (100 ms later), admitted at 1200 ms; a yellow event at
1050 ms does not touch black's timestamp. -/
theorem debounce_witness :
    (handleSensorInput_debounce (handleSensorInput_debounce ⟨0, 0⟩ SensorTeam.black 1000).2
        SensorTeam.black 1100 =
      (false, (handleSensorInput_debounce ⟨0, 0⟩ SensorTeam.black 1000).2)) ∧
    ((handleSensorInput_debounce (handleSensorInput_debounce ⟨0, 0⟩ SensorTeam.black 1000).2
        SensorTeam.black 1200).1 = true) ∧
    (lastTimeOf (handleSensorInput_debounce ⟨0, 0⟩ SensorTeam.yellow 1050).2 SensorTeam.black =
      lastTimeOf ⟨0, 0⟩ SensorTeam.black) :=
  ⟨((debounce_window_and_source_independence ⟨0, 0⟩ SensorTeam.black SensorTeam.yellow
      1000 1100 1050 (by decide)).1 (by decide)).1 (by decide),
   ((debounce_window_and_source_independence ⟨0, 0⟩ SensorTeam.black SensorTeam.yellow
      1000 1200 1050 (by decide)).1 (by decide)).2 (by decide),
   (debounce_window_and_source_independence ⟨0, 0⟩ SensorTeam.black SensorTeam.yellow
      1000 1100 1050 (by decide)).2.1⟩

/-- C10: `process_subtract_point` never changes games or sets; concretely,
from the armed initial state the point sequence B,Y,B,Y,B,Y,B reaches raw
points 4-3 with no game awarded, subtracting a yellow point leaves 4-2 —
a state satisfying the NORMAL win predicate for black — still with no
game awarded, and only the next black `process_add_point` awards the
game. -/
theorem subtract_never_awards_pending_game :
    (∀ (s : GameState) (t : String),
      ((process_subtract_point t s).1.game1 = s.game1) ∧
      ((process_subtract_point t s).1.game2 = s.game2) ∧
      ((process_subtract_point t s).1.set1 = s.set1) ∧
      ((process_subtract_point t s).1.set2 = s.set2)) ∧
    (let armed := (set_game_mode "competition" initial_game_state).1
     let sA := run_add_points ["black", "yellow", "black", "yellow", "black",
                               "yellow", "black"] armed
     let sB := (process_subtract_point "yellow" sA).1
     let sC := (process_add_point "black" sB).1
     (sA.point1 = 4 ∧ sA.point2 = 3 ∧ sA.game1 = 0 ∧ sA.game2 = 0) ∧
     (sB.point1 = 4 ∧ sB.point2 = 2 ∧ sB.game1 = 0 ∧ sB.game2 = 0 ∧
      sB.set1 = 0 ∧ sB.set2 = 0) ∧
     normal_game_win_cond sB.point1 sB.point2 ∧
     (sC.game1 = 1 ∧ sC.game2 = 0 ∧ sC.point1 = 0 ∧ sC.point2 = 0)) := by
  constructor
  · intro s t
    unfold process_subtract_point
    by_cases hw : s.matchwon <;> by_cases ha : s.scoreboard_active <;>
      by_cases ht : t = "black" <;> by_cases hm : s.mode = Mode.normal <;>
      simp [hw, ha, ht, hm, add_to_history, set_normal_score_from_points]
  · decide

/-- An accepted `process_add_point` reports success. -/
theorem process_add_point_result (s : GameState) (t : String)
    (hw : s.matchwon = false) (ha : s.scoreboard_active = true) :
    (process_add_point t s).2.2 = ApiResult.ok := by
  unfold process_add_point
  dsimp only
  simp [hw, ha]

/-- An accepted `process_subtract_point` reports success. -/
theorem process_subtract_point_result (s : GameState) (t : String)
    (hw : s.matchwon = false) (ha : s.scoreboard_active = true) :
    (process_subtract_point t s).2.2 = ApiResult.ok := by
  unfold process_subtract_point
  dsimp only
  simp [hw, ha]

/-- An accepted `process_add_point` appends at least one history entry
(the point/game/set entry, the `set` entries of set wins, or the `match`
entry when the match completes). -/
theorem process_add_point_hist (s : GameState) (t : String)
    (hw : s.matchwon = false) (ha : s.scoreboard_active = true) :
    ∃ es, es ≠ [] ∧
      ((process_add_point t s).1.matchhistory = s.matchhistory ++ es) := by
  unfold process_add_point
  rcases hmo : s.mode with _ | _ | _ <;> by_cases ht : t = "black"
  · -- NORMAL, black
    by_cases hc : normal_game_win_cond (s.point1 + 1) s.point2
    · obtain ⟨es0, hes0, hne0⟩ := handle_normal_game_win_hist "black"
        { s with point1 := s.point1 + 1, score1 := map_point (s.point1 + 1),
                 score2 := map_point s.point2, matchwon := false, mode := Mode.normal,
                 scoreboard_active := true } (by rfl)
      by_cases hmw : (handle_normal_game_win "black"
          { s with point1 := s.point1 + 1, score1 := map_point (s.point1 + 1),
                   score2 := map_point s.point2, matchwon := false, mode := Mode.normal,
                   scoreboard_active := true }).1.matchwon = false
      · simp [hw, ha, hmo, ht, hc, hmw, set_normal_score_from_points]
        split_ifs <;> (try simp only [check_side_switch_frame]) <;>
          exact append_entry_exists _ _ _ hes0 _ _ _ _ _ _ _ _
      · have hmw2 : (handle_normal_game_win "black"
            { s with point1 := s.point1 + 1, score1 := map_point (s.point1 + 1),
                     score2 := map_point s.point2, matchwon := false, mode := Mode.normal,
                     scoreboard_active := true }).1.matchwon = true := by
          simpa using hmw
        simp [hw, ha, hmo, ht, hc, hmw2, set_normal_score_from_points]
        exact ⟨es0, hne0 hmw2, hes0⟩
    · simp [hw, ha, hmo, ht, hc, set_normal_score_from_points]
      exact append_entry_exists _ _ [] (by simp) _ _ _ _ _ _ _ _
  · -- NORMAL, yellow
    by_cases hc : normal_game_win_cond (s.point2 + 1) s.point1
    · obtain ⟨es0, hes0, hne0⟩ := handle_normal_game_win_hist "yellow"
        { s with point2 := s.point2 + 1, score1 := map_point s.point1,
                 score2 := map_point (s.point2 + 1), matchwon := false, mode := Mode.normal,
                 scoreboard_active := true } (by rfl)
      by_cases hmw : (handle_normal_game_win "yellow"
          { s with point2 := s.point2 + 1, score1 := map_point s.point1,
                   score2 := map_point (s.point2 + 1), matchwon := false, mode := Mode.normal,
                   scoreboard_active := true }).1.matchwon = false
      · simp [hw, ha, hmo, ht, hc, hmw, set_normal_score_from_points]
        split_ifs <;> (try simp only [check_side_switch_frame]) <;>
          exact append_entry_exists _ _ _ hes0 _ _ _ _ _ _ _ _
      · have hmw2 : (handle_normal_game_win "yellow"
            { s with point2 := s.point2 + 1, score1 := map_point s.point1,
                     score2 := map_point (s.point2 + 1), matchwon := false, mode := Mode.normal,
                     scoreboard_active := true }).1.matchwon = true := by
          simpa using hmw
        simp [hw, ha, hmo, ht, hc, hmw2, set_normal_score_from_points]
        exact ⟨es0, hne0 hmw2, hes0⟩
    · simp [hw, ha, hmo, ht, hc, set_normal_score_from_points]
      exact append_entry_exists _ _ [] (by simp) _ _ _ _ _ _ _ _
  · -- TIEBREAK, black
    by_cases hc : tiebreak_win_cond (s.point1 + 1) s.point2
    · obtain ⟨es0, hne0, hes0⟩ := handle_tiebreak_win_hist "black"
        { s with point1 := s.point1 + 1, score1 := s.point1 + 1, score2 := s.point2,
                 matchwon := false, mode := Mode.tiebreak, scoreboard_active := true }
      simp [hw, ha, hmo, ht, hc]
      split_ifs
      · exact append_entry_exists _ _ _ hes0 _ _ _ _ _ _ _ _
      · exact ⟨es0, hne0, hes0⟩
    · simp [hw, ha, hmo, ht, hc]
      exact append_entry_exists _ _ [] (by simp) _ _ _ _ _ _ _ _
  · -- TIEBREAK, yellow
    by_cases hc : tiebreak_win_cond (s.point2 + 1) s.point1
    · obtain ⟨es0, hne0, hes0⟩ := handle_tiebreak_win_hist "yellow"
        { s with point2 := s.point2 + 1, score1 := s.point1, score2 := s.point2 + 1,
                 matchwon := false, mode := Mode.tiebreak, scoreboard_active := true }
      simp [hw, ha, hmo, ht, hc]
      split_ifs
      · exact append_entry_exists _ _ _ hes0 _ _ _ _ _ _ _ _
      · exact ⟨es0, hne0, hes0⟩
    · simp [hw, ha, hmo, ht, hc]
      exact append_entry_exists _ _ [] (by simp) _ _ _ _ _ _ _ _
  · -- SUPER_TIEBREAK, black
    by_cases hc : supertiebreak_win_cond (s.point1 + 1) s.point2
    · obtain ⟨es0, hne0, hes0⟩ := handle_supertiebreak_win_hist "black"
        { s with point1 := s.point1 + 1, score1 := s.point1 + 1, score2 := s.point2,
                 matchwon := false, mode := Mode.supertiebreak, scoreboard_active := true }
      simp [hw, ha, hmo, ht, hc]
      split_ifs
      · exact append_entry_exists _ _ _ hes0 _ _ _ _ _ _ _ _
      · exact ⟨es0, hne0, hes0⟩
    · simp [hw, ha, hmo, ht, hc]
      exact append_entry_exists _ _ [] (by simp) _ _ _ _ _ _ _ _
  · -- SUPER_TIEBREAK, yellow
    by_cases hc : supertiebreak_win_cond (s.point2 + 1) s.point1
    · obtain ⟨es0, hne0, hes0⟩ := handle_supertiebreak_win_hist "yellow"
        { s with point2 := s.point2 + 1, score1 := s.point1, score2 := s.point2 + 1,
                 matchwon := false, mode := Mode.supertiebreak, scoreboard_active := true }
      simp [hw, ha, hmo, ht, hc]
      split_ifs
      · exact append_entry_exists _ _ _ hes0 _ _ _ _ _ _ _ _
      · exact ⟨es0, hne0, hes0⟩
    · simp [hw, ha, hmo, ht, hc]
      exact append_entry_exists _ _ [] (by simp) _ _ _ _ _ _ _ _

/-- C6: every accepted (state-mutating) `process_add_point` appends at
least one history entry and every accepted `process_subtract_point`
appends exactly one `point_subtract` entry, in both cases strictly
extending the previous history (append-only: every earlier entry is
preserved in place); rejected calls leave the state — hence the history —
completely unchanged, and neither `set_game_mode` nor
`acknowledge_side_switch` ever touches the history. -/
theorem history_append_only (s : GameState) (t u m : String) :
    (s.matchwon = false → s.scoreboard_active = true →
      (∃ es, es ≠ [] ∧
        ((process_add_point t s).1.matchhistory = s.matchhistory ++ es)) ∧
      (∃ e : HistoryEntry,
        ((process_subtract_point u s).1.matchhistory = s.matchhistory ++ [e]) ∧
        e.action = "point_subtract")) ∧
    ((process_add_point t s).2.2 ≠ ApiResult.ok → (process_add_point t s).1 = s) ∧
    ((process_subtract_point u s).2.2 ≠ ApiResult.ok → (process_subtract_point u s).1 = s) ∧
    ((set_game_mode m s).1.matchhistory = s.matchhistory) ∧
    ((acknowledge_side_switch s).matchhistory = s.matchhistory) := by
  refine ⟨fun hw ha => ⟨process_add_point_hist s t hw ha, ?_⟩, ?_, ?_, ?_, ?_⟩
  · unfold process_subtract_point
    by_cases ht : u = "black" <;> by_cases hm2 : s.mode = Mode.normal <;>
      simp [hw, ha, ht, hm2, add_to_history, set_normal_score_from_points]
  · by_cases hw : s.matchwon = true
    · intro _
      unfold process_add_point
      simp [hw]
    · by_cases ha : s.scoreboard_active = true
      · intro hne
        exact absurd (process_add_point_result s t (by simpa using hw) ha) hne
      · intro _
        unfold process_add_point
        simp [by simpa using hw, by simpa using ha]
  · by_cases hw : s.matchwon = true
    · intro _
      unfold process_subtract_point
      simp [hw]
    · by_cases ha : s.scoreboard_active = true
      · intro hne
        exact absurd (process_subtract_point_result s u (by simpa using hw) ha) hne
      · intro _
        unfold process_subtract_point
        simp [by simpa using hw, by simpa using ha]
  · unfold set_game_mode
    dsimp only
    split_ifs <;> simp [trigger_basic_frame]
  · simp [acknowledge_side_switch]

/-- Witness for C6 at the concrete armed 3-0 state. -/
theorem history_append_only_witness :
    (∃ es, es ≠ [] ∧
      ((process_add_point "black" armed_three_zero_state).1.matchhistory =
        armed_three_zero_state.matchhistory ++ es)) ∧
    ((acknowledge_side_switch armed_three_zero_state).matchhistory =
      armed_three_zero_state.matchhistory) :=
  have h := history_append_only armed_three_zero_state "black" "yellow" "lock"
  ⟨(h.1 rfl rfl).1, h.2.2.2.2⟩

end Summa
